import Mathlib

/-!
Shallow embedding of `ncbi-cell/process_lung_datasets.py`.

External library calls (HTTP requests, HTML/XML parsing via BeautifulSoup,
regular-expression searches, the curl subprocess, the pickle/parquet cache
contents and the remote census store) are modelled as oracle fields of
explicit environment structures; the control flow, caching checks, filtering,
selection logic and emitted side effects of the script are translated
faithfully from the source.  Every observable side effect of a run is
recorded in an effect trace.
-/

/-- Observable side effects of the script, in program order. -/
inductive Effect where
  | openSoma
  | netGet (url : String)
  | netStream (url : String)
  | curlFetch (url : String)
  | runProc (cmd : List String)
  | readParquet (path : String)
  | writeParquet (path : String)
  | readPickle (path : String)
  | writePickle (path : String)
  | writeFile (path : String) (chunkSize : Nat)
  | logWarning (msg : String)
  | logError (msg : String)
  | printMsg (msg : String)
  | sleepSec (n : Nat)
deriving DecidableEq, Repr

/-- Effects that reach the network.  `openSoma` opens the remote census
store, `netGet`/`netStream` are `requests.get` calls, `curlFetch` shells out
to `curl` against a URL, and `runProc` invokes `ontogpt pubmed-annotate`,
which fetches the publication from PubMed. -/
def Effect.isNetwork : Effect → Bool
  | .openSoma => true
  | .netGet _ => true
  | .netStream _ => true
  | .curlFetch _ => true
  | .runProc _ => true
  | _ => false

/-- File writes performed by the dataset downloader. -/
def Effect.isWrite : Effect → Bool
  | .writeFile _ _ => true
  | _ => false

/-- Streaming asset downloads performed by the dataset downloader. -/
def Effect.isStream : Effect → Bool
  | .netStream _ => true
  | _ => false

/-- A row of the census `obs` table; only the columns the script touches. -/
structure ObsRow where
  tissue_general : String
  is_primary_data : Bool
  dataset_id : String
deriving DecidableEq, Repr

/-- A row of the census `datasets` table; only the columns the script
touches. -/
structure DatasetRow where
  collection_id : String
  dataset_id : String
  citation : String
deriving DecidableEq, Repr

/-- The filesystem is modelled by its `os.path.exists` oracle. -/
abbrev FS := String → Bool

/-- Environment of `get_lung_obs_and_datasets`: the remote census store and
the contents of the two parquet cache files. -/
structure LocatorEnv where
  censusObs : List ObsRow
  censusDatasets : List DatasetRow
  cachedObs : List ObsRow
  cachedDatasets : List DatasetRow

/-- The `value_filter` string passed to `obs.read`:
`tissue_general == 'lung' and is_primary_data == True`. -/
def lungObsFilter (o : ObsRow) : Bool :=
  o.tissue_general == "lung" && o.is_primary_data

/-- `get_lung_obs_and_datasets`: recompute from the census and write both
parquet files when either cache file is absent, otherwise read both from
cache. -/
def get_lung_obs_and_datasets (fs : FS) (env : LocatorEnv) :
    (List ObsRow × List DatasetRow) × List Effect :=
  if !fs "lung_obs.parquet" || !fs "lung_datasets.parquet" then
    let datasets := env.censusDatasets
    let lung_obs := env.censusObs.filter lungObsFilter
    let lung_datasets :=
      datasets.filter (fun d => (lung_obs.map ObsRow.dataset_id).contains d.dataset_id)
    ((lung_obs, lung_datasets),
      [.openSoma, .writeParquet "lung_obs.parquet",
       .writeParquet "lung_datasets.parquet"])
  else
    ((env.cachedObs, env.cachedDatasets),
      [.readParquet "lung_obs.parquet", .readParquet "lung_datasets.parquet"])

/-- Environment of `get_title`: the regex searches (with capture group 1),
the primary `requests.get` status per URL, the CSS-selector results on the
primary page per URL, and the texts of the script tags of the curl-fetched
page per URL. -/
structure TitleEnv where
  p1search : String → Option String
  status : String → Nat
  select : String → String → List String
  curlScripts : String → List String
  p2search : String → Option String

/-- The value `get_title` returns: the early exit at the regex miss returns
the tuple `citation_url, title`, while the final statement returns the bare
`title`. -/
inductive TitleResult where
  | pair (url : Option String) (title : Option String)
  | single (title : Option String)
deriving DecidableEq, Repr

/-- Whether a `get_title` return value is a pair. -/
def TitleResult.isPair : TitleResult → Bool
  | .pair _ _ => true
  | .single _ => false

/-- The prioritized CSS selector list of `get_title`. -/
def selectors : List String :=
  ["h1.c-article-title",
   "h1.article-header__title.smaller",
   "div.core-container h1",
   "h1.content-header__title.content-header__title--xx-long",
   "h1#page-title.highwire-cite-title"]

/-- The selector loop of `get_title`: the element texts selected by the
first selector that selects anything, in priority order. -/
def selectTitle (sel : String → List String) : List String → Option (List String)
  | [] => none
  | s :: rest =>
    let selected := sel s
    if selected.isEmpty then selectTitle sel rest else some selected

/-- `get_title`: extract the citation URL with regex `p1`; on a miss, warn
and return the tuple `(None, None)`.  Otherwise fetch the page; when the
status is 200 and a selector matches, the title is the first selected
element's text.  Otherwise fall back to curl and the regex `p2` applied to
the fifth script tag, and return the bare title. -/
def get_title (env : TitleEnv) (citation : String) : TitleResult × List Effect :=
  match env.p1search citation with
  | none =>
    (.pair none none, [.logWarning ("Could not find citation URL for " ++ citation)])
  | some citation_url =>
    let effs := [Effect.printMsg ("Getting title for citation URL: " ++ citation_url),
                 Effect.netGet citation_url]
    match
      (if env.status citation_url == 200
       then selectTitle (env.select citation_url) selectors else none) with
    | some selected =>
      let warn : List Effect :=
        if 1 < selected.length then
          [.logWarning ("Selected more than one element on soup from " ++ citation_url)]
        else []
      (.single selected.head?,
        effs ++ warn ++ [.printMsg ("Found title for citation URL: " ++ citation_url)])
    | none =>
      let found := env.curlScripts citation_url
      let title :=
        if found ≠ [] ∧ 4 < found.length then env.p2search (found.getD 4 "") else none
      (.single title,
        effs ++ [.curlFetch citation_url,
                 .printMsg ("Found title for citation URL: " ++ citation_url)])

/-- The Python-level value a `get_title` return stands for, as kept by the
filter `title is not None`: a tuple is never `None`, a bare title is kept
when it is a string. -/
inductive TitleVal where
  | tup (url : Option String) (title : Option String)
  | str (s : String)
deriving DecidableEq, Repr

/-- The filter `[title for title in titles if title is not None]` applied to
one `get_title` result. -/
def keptTitle : TitleResult → Option TitleVal
  | .pair u t => some (.tup u t)
  | .single (some s) => some (.str s)
  | .single none => none

/-- Environment of `get_titles`: the `get_title` oracles and the contents of
`titles.pickle`. -/
structure TitlesEnv where
  tenv : TitleEnv
  cachedTitles : List TitleVal

/-- `get_titles`: when `titles.pickle` is absent, map `get_title` over the
citations, drop `None` results, deduplicate and pickle; otherwise load the
pickle. -/
def get_titles (fs : FS) (env : TitlesEnv) (lung_datasets : List DatasetRow) :
    List TitleVal × List Effect :=
  if !fs "titles.pickle" then
    let citations := lung_datasets.map DatasetRow.citation
    let results := citations.map (get_title env.tenv)
    let titles := ((results.map Prod.fst).filterMap keptTitle).dedup
    (titles, (results.map Prod.snd).flatten ++ [.writePickle "titles.pickle"])
  else
    (env.cachedTitles, [.readPickle "titles.pickle"])

/-- Base URL of the NCBI E-utilities. -/
def EUTILS_URL : String := "https://eutils.ncbi.nlm.nih.gov/entrez/eutils/"

/-- Seconds slept before each E-utilities request. -/
def NCBI_API_SLEEP : Nat := 1

/-- Environment of the PMID resolver: per-title search status, result count
and id list of the esearch endpoint; per-PMID status and `ArticleTitle` text
of the efetch endpoint; and the contents of `pmids.pickle`. -/
structure PmidEnv where
  searchStatus : String → Nat
  count : String → Nat
  idlist : String → List String
  fetchStatus : String → Nat
  fetchTitle : String → Option String
  cachedPmids : List String

/-- `get_title_for_pmid`: fetch the article XML; on status 200 the title is
the `ArticleTitle` text when found, otherwise log an error and return
`None`. -/
def get_title_for_pmid (env : PmidEnv) (pmid : String) : Option String × List Effect :=
  let effs := [Effect.sleepSec NCBI_API_SLEEP, Effect.netGet (EUTILS_URL ++ "efetch.fcgi")]
  if env.fetchStatus pmid == 200 then
    (env.fetchTitle pmid, effs)
  else
    (none, effs ++ [.logError "Encountered error in fetching from PubMed"])

/-- The candidate loop of `get_pmid_for_title`: fetch each candidate title
in id-list order and stop at the first whose fetched title is the query
title with a trailing period appended. -/
def findMatching (env : PmidEnv) (title : String) :
    List String → Option String × List Effect
  | [] => (none, [])
  | p :: rest =>
    let r := get_title_for_pmid env p
    if r.1 == some (title ++ ".") then
      (some p, r.2 ++ [.printMsg ("Found PMID for title " ++ title)])
    else
      let rr := findMatching env title rest
      (rr.1, r.2 ++ rr.2)

/-- Python truthiness of the `pmid` variable (`if not pmid`): `None` and the
empty string are falsy. -/
def pyTruthy : Option String → Bool
  | none => false
  | some s => !s.isEmpty

/-- `get_pmid_for_title`: search PubMed for the title.  On status 200 with
more than one result, run the candidate loop; if the selected `pmid` is
falsy, fall back to the first id (an `IndexError` when the id list is
empty).  On status 200 with at most one result, take the first id directly
(again an `IndexError` when the id list is empty).  Non-200 statuses are
logged and yield `None`. -/
def get_pmid_for_title (env : PmidEnv) (title : String) :
    Except String (Option String) × List Effect :=
  let effs := [Effect.printMsg ("Getting PMID for title " ++ title),
               Effect.sleepSec NCBI_API_SLEEP,
               Effect.netGet (EUTILS_URL ++ "esearch.fcgi")]
  if env.searchStatus title == 200 then
    if 1 < env.count title then
      let warn := [Effect.logWarning ("PubMed returned more than one result for title " ++ title)]
      let m := findMatching env title (env.idlist title)
      if pyTruthy m.1 then
        (.ok m.1, effs ++ warn ++ m.2)
      else
        match env.idlist title with
        | [] => (.error "IndexError: list index out of range", effs ++ warn ++ m.2)
        | p0 :: _ =>
          (.ok (some p0), effs ++ warn ++ m.2 ++ [.printMsg ("Using first PMID for title " ++ title)])
    else
      match env.idlist title with
      | [] => (.error "IndexError: list index out of range", effs)
      | p0 :: _ => (.ok (some p0), effs ++ [.printMsg ("Found PMID for title " ++ title)])
  else if env.searchStatus title == 429 then
    (.ok none, effs ++ [.logError "Too many requests to NCBI API. Try again later, or use API key."])
  else
    (.ok none, effs ++ [.logError "Encountered error in searching PubMed"])

/-- The pool map of `get_pmids`: a raised exception in any worker aborts the
stage. -/
def mapPmids (env : PmidEnv) :
    List String → Except String (List (Option String)) × List Effect
  | [] => (.ok [], [])
  | t :: rest =>
    let r := get_pmid_for_title env t
    match r.1 with
    | .error m => (.error m, r.2)
    | .ok v =>
      let rr := mapPmids env rest
      match rr.1 with
      | .error m => (.error m, r.2 ++ rr.2)
      | .ok vs => (.ok (v :: vs), r.2 ++ rr.2)

/-- `get_pmids`: when `pmids.pickle` is absent, map `get_pmid_for_title`
over the titles, drop `None` results, deduplicate and pickle; otherwise
load the pickle. -/
def get_pmids (fs : FS) (env : PmidEnv) (titles : List String) :
    Except String (List String) × List Effect :=
  if !fs "pmids.pickle" then
    let r := mapPmids env titles
    match r.1 with
    | .error m => (.error m, r.2)
    | .ok vs => (.ok ((vs.filterMap id).dedup), r.2 ++ [.writePickle "pmids.pickle"])
  else
    (.ok env.cachedPmids, [.readPickle "pmids.pickle"])

/-- Output directory of the annotation runner. -/
def ONTOGPT_DIR : String := "ontogpt"

/-- `run_ontogpt_pubmed_annotate`: skip when the per-PMID output file
exists, otherwise invoke the external tool. -/
def run_ontogpt_pubmed_annotate (fs : FS) (pmid : String) : List Effect :=
  let output_path := ONTOGPT_DIR ++ "/" ++ pmid ++ ".out"
  if !fs output_path then
    [Effect.printMsg ("Running ontogpt pubmed-annotate for PMID " ++ pmid),
     Effect.runProc ["ontogpt", "pubmed-annotate", "--template", "cell_type",
                     pmid, "--limit", "1", "--output", output_path],
     Effect.printMsg ("Completed ontogpt pubmed-annotate for PMID " ++ pmid)]
  else
    [Effect.printMsg ("Ontogpt pubmed-annotate output for PMID " ++ pmid ++ " exists")]

/-- `run_ontogpt`: the pool map over all PMIDs. -/
def run_ontogpt (fs : FS) (pmids : List String) : List Effect :=
  (pmids.map (run_ontogpt_pubmed_annotate fs)).flatten

/-- Base URL of the CELLxGENE curation API. -/
def CELLXGENE_API_URL_BASE : String := "https://api.cellxgene.cziscience.com"

/-- Download directory of the dataset downloader. -/
def CELLXGENE_DIR : String := "cellxgene"

/-- One entry of the asset list of the metadata response. -/
structure Asset where
  filetype : String
  url : String
deriving DecidableEq, Repr

/-- Environment of `get_dataset`: per-URL status, response dataset id and
asset list of the metadata endpoint, and whether the streaming GET of an
asset URL raises. -/
structure DatasetEnv where
  metaStatus : String → Nat
  respDatasetId : String → String
  assets : String → List Asset
  assetRaises : String → Bool

/-- The metadata URL built from a collection id and a dataset id. -/
def datasetUrl (collection_id dataset_id : String) : String :=
  CELLXGENE_API_URL_BASE ++ "/curation/v1/collections/" ++ collection_id
    ++ "/datasets/" ++ dataset_id

/-- The local download filename of an asset. -/
def downloadName (dataset_id filetype : String) : String :=
  CELLXGENE_DIR ++ "/" ++ dataset_id ++ "." ++ filetype

/-- The asset loop of `get_dataset`: skip non-H5AD assets; for an H5AD
asset whose local file is absent, stream it and write it in 1 MiB chunks
(after which the file exists), raising when the streaming GET fails;
otherwise report that the file exists. -/
def downloadAssets (env : DatasetEnv) (dataset_id : String) (fs : FS) :
    List Asset → Except String FS × List Effect
  | [] => (.ok fs, [])
  | a :: rest =>
    if a.filetype ≠ "H5AD" then downloadAssets env dataset_id fs rest
    else
      let fname := downloadName dataset_id a.filetype
      if !fs fname then
        if env.assetRaises a.url then
          (.error "HTTPError",
            [.printMsg ("Downloading dataset file " ++ fname), .netStream a.url])
        else
          let fs2 : FS := fun p => p == fname || fs p
          let r := downloadAssets env dataset_id fs2 rest
          (r.1, [Effect.printMsg ("Downloading dataset file " ++ fname),
                 Effect.netStream a.url,
                 Effect.writeFile fname (1024 * 1024),
                 Effect.printMsg ("Dataset file " ++ fname ++ " downloaded")] ++ r.2)
      else
        let r := downloadAssets env dataset_id fs rest
        (r.1, [Effect.printMsg ("Dataset file " ++ fname ++ " exists")] ++ r.2)

/-- `get_dataset`: GET the asset metadata (always), raise on a 4xx/5xx
status, log and return on a non-200 status or a dataset-id mismatch, then
run the asset loop. -/
def get_dataset (env : DatasetEnv) (fs : FS) (row : DatasetRow) :
    Except String FS × List Effect :=
  let url := datasetUrl row.collection_id row.dataset_id
  if 400 ≤ env.metaStatus url then (.error "HTTPError", [.netGet url])
  else if env.metaStatus url ≠ 200 then
    (.ok fs, [.netGet url, .logError ("Could not get dataset for id " ++ row.dataset_id)])
  else if row.dataset_id ≠ env.respDatasetId url then
    (.ok fs,
      [.netGet url,
       .logError ("Response dataset id does not equal specified dataset id " ++ row.dataset_id)])
  else
    let r := downloadAssets env row.dataset_id fs (env.assets url)
    (r.1, Effect.netGet url :: r.2)

/-- `get_datasets`: the download stage entry point.  It binds a parameter
`datasets_df` but builds its row list from the module-level global
`lung_datasets`; workers of the pool each start from the initial
filesystem.  Returns the iterated rows and the combined trace. -/
def get_datasets (lung_datasets : List DatasetRow) (datasets_df : List DatasetRow)
    (env : DatasetEnv) (fs : FS) : List DatasetRow × List Effect :=
  let datasets_series := lung_datasets
  (datasets_series, (datasets_series.map (fun row => (get_dataset env fs row).2)).flatten)

/-! ### Concrete instances used to exercise the theorems -/

/-- A filesystem on which every path exists. -/
def fsAll : FS := fun _ => true

/-- A filesystem on which no path exists. -/
def fsNone : FS := fun _ => false

/-- A census with one lung primary observation and one matching dataset. -/
def envLoc0 : LocatorEnv :=
  { censusObs := [⟨"lung", true, "d1"⟩],
    censusDatasets := [⟨"c1", "d1", "Publication: u Dataset Version: v"⟩],
    cachedObs := [],
    cachedDatasets := [] }

/-- The dataset row of `envLoc0`. -/
def dsRow0 : DatasetRow := ⟨"c1", "d1", "Publication: u Dataset Version: v"⟩

/-- A title environment whose citation regex never matches. -/
def envTitleMiss : TitleEnv :=
  { p1search := fun _ => none,
    status := fun _ => 200,
    select := fun _ _ => [],
    curlScripts := fun _ => [],
    p2search := fun _ => none }

/-- A title environment in which the primary path succeeds through the first
CSS selector. -/
def envTitleHit : TitleEnv :=
  { p1search := fun _ => some "https://example.com/article",
    status := fun _ => 200,
    select := fun _ s => if s == "h1.c-article-title" then ["My Study"] else [],
    curlScripts := fun _ => [],
    p2search := fun _ => none }

/-- A title environment in which the primary status is not 200 and the
fallback finds the title in the fifth script tag. -/
def envTitleCurl : TitleEnv :=
  { p1search := fun _ => some "https://example.com/article",
    status := fun _ => 404,
    select := fun _ _ => [],
    curlScripts := fun _ => ["s0", "s1", "s2", "s3", "script with articleName"],
    p2search := fun s => if s == "script with articleName" then some "My Study" else none }

/-- A titles environment over `envTitleMiss` with an empty cache. -/
def envTitles0 : TitlesEnv :=
  { tenv := envTitleMiss, cachedTitles := [] }

/-- A PMID environment whose search endpoint returns a server error. -/
def envPmidErr : PmidEnv :=
  { searchStatus := fun _ => 500,
    count := fun _ => 0,
    idlist := fun _ => [],
    fetchStatus := fun _ => 200,
    fetchTitle := fun _ => none,
    cachedPmids := [] }

/-- A PMID environment whose search succeeds but returns zero results: the
result count is 0 and the id list is empty. -/
def envPmidZero : PmidEnv :=
  { searchStatus := fun _ => 200,
    count := fun _ => 0,
    idlist := fun _ => [],
    fetchStatus := fun _ => 200,
    fetchTitle := fun _ => none,
    cachedPmids := [] }

/-- A PMID environment with two search results in which the second
candidate's fetched title matches the query plus a period. -/
def envPmidMulti : PmidEnv :=
  { searchStatus := fun _ => 200,
    count := fun _ => 2,
    idlist := fun _ => ["11", "22"],
    fetchStatus := fun _ => 200,
    fetchTitle := fun p => if p == "22" then some "Foo bar." else some "Another title.",
    cachedPmids := [] }

/-- A PMID environment with two search results in which the only matching
candidate is the empty string. -/
def envPmidEmpty : PmidEnv :=
  { searchStatus := fun _ => 200,
    count := fun _ => 2,
    idlist := fun _ => ["42", ""],
    fetchStatus := fun _ => 200,
    fetchTitle := fun p => if p == "" then some "Foo bar." else some "Other title.",
    cachedPmids := [] }

/-- A dataset environment whose metadata response matches the request and
whose asset list holds two H5AD assets around a non-H5AD one. -/
def envDsOk : DatasetEnv :=
  { metaStatus := fun _ => 200,
    respDatasetId := fun _ => "d1",
    assets := fun _ => [⟨"H5AD", "https://a1"⟩, ⟨"RDS", "https://a2"⟩, ⟨"H5AD", "https://a3"⟩],
    assetRaises := fun _ => false }

/-- A dataset environment whose metadata response carries a different
dataset id than the requested one. -/
def envDsMismatch : DatasetEnv :=
  { metaStatus := fun _ => 200,
    respDatasetId := fun _ => "other",
    assets := fun _ => [⟨"H5AD", "https://a1"⟩],
    assetRaises := fun _ => false }

/-! ### Theorems -/

/-- C10: the download stage entry point `get_datasets` ignores its
`datasets_df` parameter entirely: for any two argument values it returns the
same trace and iterates exactly the rows of the module-level global
`lung_datasets`. -/
theorem get_datasets_ignores_argument (g a b : List DatasetRow)
    (env : DatasetEnv) (fs : FS) :
    get_datasets g a env fs = get_datasets g b env fs ∧
      (get_datasets g a env fs).1 = g :=
  ⟨rfl, rfl⟩

/-- C6: every dataset row of the lung-filtered dataset table computed by the
dataset locator has its dataset id among the dataset ids of the lung
observation table it computes alongside. -/
theorem lung_datasets_ids_in_obs (fs : FS) (env : LocatorEnv)
    (h : fs "lung_obs.parquet" = false) (d : DatasetRow)
    (hd : d ∈ ((get_lung_obs_and_datasets fs env).1).2) :
    d.dataset_id ∈ ((get_lung_obs_and_datasets fs env).1).1.map ObsRow.dataset_id := by
  simp [get_lung_obs_and_datasets, h] at hd ⊢
  exact hd.2

/-- Witness for C6: on a concrete census with one lung observation and one
matching dataset, the filtered dataset's id appears among the observation
ids. -/
theorem lung_datasets_ids_in_obs_witness :
    dsRow0.dataset_id ∈
      ((get_lung_obs_and_datasets fsNone envLoc0).1).1.map ObsRow.dataset_id :=
  lung_datasets_ids_in_obs fsNone envLoc0 rfl dsRow0 (by decide)

/-- C9: on a citation in which the publication-URL pattern does not match,
`get_title` returns the pair `(None, None)`, logs a warning, and its trace
holds no network call at all. -/
theorem get_title_no_url (env : TitleEnv) (c : String)
    (h : env.p1search c = none) :
    (get_title env c).1 = TitleResult.pair none none ∧
      (get_title env c).2.any Effect.isNetwork = false ∧
      (get_title env c).2 = [Effect.logWarning ("Could not find citation URL for " ++ c)] := by
  simp [get_title, h, Effect.isNetwork]

/-- Witness for C9: a concrete environment whose citation regex misses. -/
theorem get_title_no_url_witness :
    (get_title envTitleMiss "no url here").1 = TitleResult.pair none none ∧
      (get_title envTitleMiss "no url here").2.any Effect.isNetwork = false ∧
      (get_title envTitleMiss "no url here").2 =
        [Effect.logWarning ("Could not find citation URL for " ++ "no url here")] :=
  get_title_no_url envTitleMiss "no url here" rfl

/-- C3 counterexample: on a citation whose URL is found and whose primary
fetch succeeds through a selector, `get_title` returns the bare title, not a
pair. -/
theorem get_title_not_always_pair :
    (get_title envTitleHit "Publication: u Dataset Version: v").1 =
        TitleResult.single (some "My Study") ∧
      ((get_title envTitleHit "Publication: u Dataset Version: v").1).isPair = false :=
  ⟨rfl, rfl⟩

/-- C3 amended: `get_title` returns the pair `(None, None)` exactly on the
early exit where the citation URL is not found; on every citation whose URL
is found it returns a bare (possibly absent) title. -/
theorem get_title_result_shape (env : TitleEnv) (c : String) :
    ((get_title env c).1 = TitleResult.pair none none ∧ env.p1search c = none) ∨
      (∃ t, (get_title env c).1 = TitleResult.single t ∧ ∃ u, env.p1search c = some u) := by
  cases h : env.p1search c with
  | none => exact Or.inl ⟨by simp [get_title, h], rfl⟩
  | some u =>
    refine Or.inr ?_
    have hp : ∃ t, (get_title env c).1 = TitleResult.single t := by
      simp only [get_title, h]
      split
      · exact ⟨_, rfl⟩
      · exact ⟨_, rfl⟩
    rcases hp with ⟨t, ht⟩
    exact ⟨t, ht, u, rfl⟩

/-- The selector loop finds nothing exactly when every selector selects
nothing. -/
theorem selectTitle_eq_none_iff (sel : String → List String) (l : List String) :
    selectTitle sel l = none ↔ ∀ s ∈ l, sel s = [] := by
  induction l with
  | nil => simp [selectTitle]
  | cons s rest ih =>
    by_cases hs : sel s = []
    · simp [selectTitle, hs, ih]
    · simp [selectTitle, List.isEmpty_iff, hs]

/-- C7: when the citation URL is found, the curl fallback runs exactly when
the primary status is not 200 or no CSS selector matched, and in that case
the returned title is the second regex applied to the text of the fifth
script tag of the curl-fetched page (absent when that tag does not exist or
the regex misses). -/
theorem get_title_fallback (env : TitleEnv) (c u : String)
    (h : env.p1search c = some u) :
    (Effect.curlFetch u ∈ (get_title env c).2 ↔
       (env.status u ≠ 200 ∨ ∀ s ∈ selectors, env.select u s = [])) ∧
    ((env.status u ≠ 200 ∨ ∀ s ∈ selectors, env.select u s = []) →
       (get_title env c).1 = TitleResult.single
         (if env.curlScripts u ≠ [] ∧ 4 < (env.curlScripts u).length
          then env.p2search ((env.curlScripts u).getD 4 "") else none)) := by
  by_cases hst : env.status u = 200
  · cases hsel : selectTitle (env.select u) selectors with
    | none =>
      have hall : ∀ s ∈ selectors, env.select u s = [] :=
        (selectTitle_eq_none_iff (env.select u) selectors).mp hsel
      refine ⟨⟨fun _ => Or.inr hall, fun _ => ?_⟩, fun _ => ?_⟩
      · simp [get_title, h, hst, hsel]
      · simp [get_title, h, hst, hsel]
    | some selected =>
      have hne : ¬ ∀ s ∈ selectors, env.select u s = [] := by
        intro hall
        rw [(selectTitle_eq_none_iff (env.select u) selectors).mpr hall] at hsel
        exact Option.noConfusion hsel
      have hnd : ¬ (env.status u ≠ 200 ∨ ∀ s ∈ selectors, env.select u s = []) := by
        intro hd
        rcases hd with hd | hd
        · exact hd hst
        · exact hne hd
      refine ⟨⟨fun hmem => ?_, fun hd => absurd hd hnd⟩, fun hd => absurd hd hnd⟩
      exfalso
      by_cases hlen : 1 < selected.length <;>
        simp [get_title, h, hst, hsel, hlen] at hmem
  · have hst2 : (env.status u == 200) = false := by
      simpa using hst
    refine ⟨⟨fun _ => Or.inl hst, fun _ => ?_⟩, fun _ => ?_⟩
    · simp [get_title, h, hst2]
    · simp [get_title, h, hst2]

/-- Witness for C7: a concrete environment with a 404 primary status, where
the fallback runs and extracts the title from the fifth script tag. -/
theorem get_title_fallback_witness :
    Effect.curlFetch "https://example.com/article" ∈ (get_title envTitleCurl "c").2 ∧
      (get_title envTitleCurl "c").1 = TitleResult.single (some "My Study") := by
  have h := get_title_fallback envTitleCurl "c" "https://example.com/article" rfl
  refine ⟨h.1.mpr (Or.inl (by decide)), ?_⟩
  have h2 := h.2 (Or.inl (by decide))
  rw [h2]
  decide

/-- When the local H5AD file already exists, the asset loop leaves the
filesystem unchanged and neither writes nor streams anything. -/
theorem downloadAssets_cached (env : DatasetEnv) (id : String) (fs : FS)
    (l : List Asset) (h : fs (downloadName id "H5AD") = true) :
    (downloadAssets env id fs l).1 = Except.ok fs ∧
      ∀ e ∈ (downloadAssets env id fs l).2, e.isWrite = false ∧ e.isStream = false := by
  induction l with
  | nil => simp [downloadAssets]
  | cons a rest ih =>
    by_cases hft : a.filetype = "H5AD"
    · simp only [downloadAssets, hft, ne_eq, not_true_eq_false, if_false, h,
        Bool.not_true, Bool.false_eq_true]
      refine ⟨ih.1, ?_⟩
      intro e he
      rcases List.mem_cons.mp he with he | he
      · subst he; exact ⟨rfl, rfl⟩
      · exact ih.2 e he
    · simpa [downloadAssets, hft] using ih

/-- When no asset request raises, the asset loop writes and streams exactly
the first H5AD asset, and only when the local file is initially absent:
every later H5AD asset maps to the same filename, which exists once the
first one is written. -/
theorem downloadAssets_first (env : DatasetEnv) (id : String) (fs : FS)
    (l : List Asset) (hr : ∀ a ∈ l, env.assetRaises a.url = false) :
    (downloadAssets env id fs l).2.filter Effect.isWrite =
      (if fs (downloadName id "H5AD") = true then []
       else match l.find? (fun a => a.filetype == "H5AD") with
            | some _ => [Effect.writeFile (downloadName id "H5AD") (1024 * 1024)]
            | none => []) ∧
    (downloadAssets env id fs l).2.filter Effect.isStream =
      (if fs (downloadName id "H5AD") = true then []
       else match l.find? (fun a => a.filetype == "H5AD") with
            | some a => [Effect.netStream a.url]
            | none => []) := by
  induction l generalizing fs with
  | nil => simp [downloadAssets]
  | cons a rest ih =>
    have hra : env.assetRaises a.url = false := hr a (List.mem_cons_self a rest)
    have hrr : ∀ b ∈ rest, env.assetRaises b.url = false :=
      fun b hb => hr b (List.mem_cons_of_mem a hb)
    by_cases hft : a.filetype = "H5AD"
    · have hfind : (a :: rest).find? (fun x => x.filetype == "H5AD") = some a :=
        List.find?_cons_of_pos _ (by simp [hft])
      by_cases h : fs (downloadName id "H5AD") = true
      · have hc := (downloadAssets_cached env id fs rest h).2
        have hw : (downloadAssets env id fs rest).2.filter Effect.isWrite = [] :=
          List.filter_eq_nil_iff.mpr (fun e he => by simp [(hc e he).1])
        have hs : (downloadAssets env id fs rest).2.filter Effect.isStream = [] :=
          List.filter_eq_nil_iff.mpr (fun e he => by simp [(hc e he).2])
        simp [downloadAssets, hft, h, hfind, hw, hs, Effect.isWrite, Effect.isStream]
      · have h2 : fs (downloadName id "H5AD") = false := by
          simpa using h
        have hc := (downloadAssets_cached env id
            (fun p => p == downloadName id "H5AD" || fs p) rest (by simp)).2
        have hw : (downloadAssets env id
              (fun p => p == downloadName id "H5AD" || fs p) rest).2.filter
              Effect.isWrite = [] :=
          List.filter_eq_nil_iff.mpr (fun e he => by simp [(hc e he).1])
        have hs : (downloadAssets env id
              (fun p => p == downloadName id "H5AD" || fs p) rest).2.filter
              Effect.isStream = [] :=
          List.filter_eq_nil_iff.mpr (fun e he => by simp [(hc e he).2])
        simp [downloadAssets, hft, h2, hra, hfind, hw, hs,
          Effect.isWrite, Effect.isStream]
    · have hfind : (a :: rest).find? (fun x => x.filetype == "H5AD") =
          rest.find? (fun x => x.filetype == "H5AD") :=
        List.find?_cons_of_neg _ (by simp [hft])
      simpa [downloadAssets, hft, hfind] using ih fs hrr

/-- C5: when the asset-metadata response's dataset id differs from the
requested one, `get_dataset` logs an error and returns with the filesystem
unchanged, and its trace holds no file write and no streamed download. -/
theorem get_dataset_id_mismatch (env : DatasetEnv) (fs : FS) (row : DatasetRow)
    (hok : env.metaStatus (datasetUrl row.collection_id row.dataset_id) = 200)
    (hne : row.dataset_id ≠
      env.respDatasetId (datasetUrl row.collection_id row.dataset_id)) :
    (get_dataset env fs row).1 = Except.ok fs ∧
      (∃ m, Effect.logError m ∈ (get_dataset env fs row).2) ∧
      (get_dataset env fs row).2.filter Effect.isWrite = [] ∧
      (get_dataset env fs row).2.filter Effect.isStream = [] := by
  refine ⟨?_, ⟨"Response dataset id does not equal specified dataset id "
      ++ row.dataset_id, ?_⟩, ?_, ?_⟩ <;>
    simp [get_dataset, hok, hne, Effect.isWrite, Effect.isStream]

/-- Witness for C5: a concrete metadata response whose dataset id `other`
differs from the requested id `d1`. -/
theorem get_dataset_id_mismatch_witness :
    (get_dataset envDsMismatch fsNone dsRow0).1 = Except.ok fsNone ∧
      (∃ m, Effect.logError m ∈ (get_dataset envDsMismatch fsNone dsRow0).2) ∧
      (get_dataset envDsMismatch fsNone dsRow0).2.filter Effect.isWrite = [] ∧
      (get_dataset envDsMismatch fsNone dsRow0).2.filter Effect.isStream = [] :=
  get_dataset_id_mismatch envDsMismatch fsNone dsRow0 rfl (by decide)

/-- C8: on a well-formed metadata response (status 200, matching dataset
id, no failing asset request) `get_dataset` writes and streams exactly the
first H5AD asset of the asset list in 1 MiB chunks, and skips both entirely
when the local per-dataset file already exists. -/
theorem get_dataset_first_asset (env : DatasetEnv) (fs : FS) (row : DatasetRow)
    (hok : env.metaStatus (datasetUrl row.collection_id row.dataset_id) = 200)
    (hid : row.dataset_id =
      env.respDatasetId (datasetUrl row.collection_id row.dataset_id))
    (hr : ∀ a ∈ env.assets (datasetUrl row.collection_id row.dataset_id),
      env.assetRaises a.url = false) :
    (get_dataset env fs row).2.filter Effect.isWrite =
      (if fs (downloadName row.dataset_id "H5AD") = true then []
       else match (env.assets (datasetUrl row.collection_id row.dataset_id)).find?
           (fun a => a.filetype == "H5AD") with
         | some _ => [Effect.writeFile (downloadName row.dataset_id "H5AD") (1024 * 1024)]
         | none => []) ∧
    (get_dataset env fs row).2.filter Effect.isStream =
      (if fs (downloadName row.dataset_id "H5AD") = true then []
       else match (env.assets (datasetUrl row.collection_id row.dataset_id)).find?
           (fun a => a.filetype == "H5AD") with
         | some a => [Effect.netStream a.url]
         | none => []) := by
  have hfirst := downloadAssets_first env row.dataset_id fs
    (env.assets (datasetUrl row.collection_id row.dataset_id)) hr
  refine ⟨?_, ?_⟩ <;>
    simp [get_dataset, hok, ← hid, hfirst.1, hfirst.2,
      Effect.isWrite, Effect.isStream]

/-- Witness for C8: with two H5AD assets in the list and the file initially
absent, exactly the first H5AD asset is streamed and written. -/
theorem get_dataset_first_asset_witness :
    (get_dataset envDsOk fsNone dsRow0).2.filter Effect.isWrite =
        [Effect.writeFile "cellxgene/d1.H5AD" (1024 * 1024)] ∧
      (get_dataset envDsOk fsNone dsRow0).2.filter Effect.isStream =
        [Effect.netStream "https://a1"] := by
  have h := get_dataset_first_asset envDsOk fsNone dsRow0 rfl rfl (by decide)
  refine ⟨?_, ?_⟩
  · rw [h.1]; rfl
  · rw [h.2]; rfl

/-- The candidate loop selects the first id whose fetched title is the
query title with a trailing period appended. -/
theorem findMatching_eq_find (env : PmidEnv) (title : String) (l : List String) :
    (findMatching env title l).1 =
      l.find? (fun p => (get_title_for_pmid env p).1 == some (title ++ ".")) := by
  induction l with
  | nil => simp [findMatching]
  | cons p rest ih =>
    cases hm : ((get_title_for_pmid env p).1 == some (title ++ ".")) with
    | true =>
      have hpos : List.find?
            (fun q => (get_title_for_pmid env q).1 == some (title ++ ".")) (p :: rest) =
          some p :=
        List.find?_cons_of_pos rest hm
      simp [findMatching, hm, hpos]
    | false =>
      have hneg : List.find?
            (fun q => (get_title_for_pmid env q).1 == some (title ++ ".")) (p :: rest) =
          List.find?
            (fun q => (get_title_for_pmid env q).1 == some (title ++ ".")) rest :=
        List.find?_cons_of_neg rest (by simp [hm])
      simp [findMatching, hm, hneg, ih]

/-- Every PMID of a successful pool map comes from some input title's
resolution. -/
theorem mapPmids_ok (env : PmidEnv) (ts : List String)
    (vs : List (Option String)) (h : (mapPmids env ts).1 = Except.ok vs) :
    ∀ v ∈ vs, ∃ t ∈ ts, (get_pmid_for_title env t).1 = Except.ok v := by
  induction ts generalizing vs with
  | nil =>
    simp [mapPmids] at h
    subst h
    simp
  | cons t rest ih =>
    simp only [mapPmids] at h
    cases hr : (get_pmid_for_title env t).1 with
    | error m => rw [hr] at h; exact absurd h (by simp)
    | ok v =>
      rw [hr] at h
      cases hrr : (mapPmids env rest).1 with
      | error m => rw [hrr] at h; exact absurd h (by simp)
      | ok vs2 =>
        rw [hrr] at h
        simp only [Except.ok.injEq] at h
        subst h
        intro w hw
        rcases List.mem_cons.mp hw with hw | hw
        · exact ⟨t, List.mem_cons_self t rest, hw ▸ hr⟩
        · rcases ih vs2 hrr w hw with ⟨t2, ht2, hres⟩
          exact ⟨t2, List.mem_cons_of_mem t ht2, hres⟩

/-- C2 counterexample: on a 200 search response with zero results (empty id
list), `get_pmid_for_title` raises an unhandled IndexError instead of
returning `None`. -/
theorem get_pmid_zero_results_raises :
    (get_pmid_for_title envPmidZero "T").1 =
      Except.error "IndexError: list index out of range" := rfl

/-- C2 amended: a missing PMID caused by a non-200 search response is
non-fatal — it is logged and `get_pmid_for_title` returns `None` — and every
PMID pickled by `get_pmids` comes from a title resolved to an actual id, so
`None` placeholders are filtered out; a 200 search response with zero
results, however, raises an unhandled IndexError. -/
theorem get_pmid_http_error (env : PmidEnv) (title : String) (fs : FS)
    (ts : List String) (out : List String)
    (hst : env.searchStatus title ≠ 200)
    (hfs : fs "pmids.pickle" = false)
    (hout : (get_pmids fs env ts).1 = Except.ok out) :
    (get_pmid_for_title env title).1 = Except.ok none ∧
      (∃ m, Effect.logError m ∈ (get_pmid_for_title env title).2) ∧
      ∀ x ∈ out, ∃ t ∈ ts, (get_pmid_for_title env t).1 = Except.ok (some x) := by
  have hb : (env.searchStatus title == 200) = false := by
    simpa using hst
  refine ⟨?_, ?_, ?_⟩
  · cases h429 : (env.searchStatus title == 429) <;>
      simp [get_pmid_for_title, hb, h429]
  · cases h429 : (env.searchStatus title == 429) <;>
      [exact ⟨"Encountered error in searching PubMed",
        by simp [get_pmid_for_title, hb, h429]⟩;
       exact ⟨"Too many requests to NCBI API. Try again later, or use API key.",
        by simp [get_pmid_for_title, hb, h429]⟩]
  · intro x hx
    simp only [get_pmids, hfs, Bool.not_false, if_true] at hout
    cases hmp : (mapPmids env ts).1 with
    | error m => rw [hmp] at hout; exact absurd hout (by simp)
    | ok vs =>
      rw [hmp] at hout
      simp only [Except.ok.injEq] at hout
      subst hout
      have hx2 : x ∈ vs.filterMap id := List.mem_dedup.mp hx
      rcases List.mem_filterMap.mp hx2 with ⟨v, hv, hvx⟩
      rcases mapPmids_ok env ts vs hmp v hv with ⟨t, ht, hres⟩
      have hvx2 : v = some x := hvx
      exact ⟨t, ht, hvx2 ▸ hres⟩

/-- Witness for C2 amended: a concrete 500 search status yields `None`, an
error log, and an empty pickled list. -/
theorem get_pmid_http_error_witness :
    (get_pmid_for_title envPmidErr "T").1 = Except.ok none ∧
      (∃ m, Effect.logError m ∈ (get_pmid_for_title envPmidErr "T").2) ∧
      ∀ x ∈ ([] : List String), ∃ t ∈ ["T"],
        (get_pmid_for_title envPmidErr t).1 = Except.ok (some x) :=
  get_pmid_http_error envPmidErr "T" fsNone ["T"] [] (by decide) rfl rfl

/-- C4 counterexample: with search results `["42", ""]` for the query
`Foo bar`, the first candidate whose fetched title is `Foo bar.` is the
empty string, yet the resolver returns `42`: the selected PMID is tested for
Python truthiness, so an empty-string match falls back to the first search
result. -/
theorem get_pmid_empty_match_fallback :
    (envPmidEmpty.idlist "Foo bar").find?
        (fun p => (get_title_for_pmid envPmidEmpty p).1 == some ("Foo bar" ++ ".")) =
      some "" ∧
      (get_pmid_for_title envPmidEmpty "Foo bar").1 = Except.ok (some "42") :=
  ⟨rfl, rfl⟩

/-- C4 amended: on a 200 search response with more than one result and a
non-empty id list, the resolver fetches candidate titles in id-list order
and selects the first candidate whose fetched title equals the query title
with a trailing period appended — unless that candidate is the empty string,
which the truthiness test treats like no match — and otherwise selects the
first search result. -/
theorem get_pmid_multi (env : PmidEnv) (title p0 : String) (rest : List String)
    (hst : env.searchStatus title = 200)
    (hcount : 1 < env.count title)
    (hid : env.idlist title = p0 :: rest) :
    (get_pmid_for_title env title).1 = Except.ok (some
      (match (env.idlist title).find?
          (fun p => (get_title_for_pmid env p).1 == some (title ++ ".")) with
       | some p => if p.isEmpty then p0 else p
       | none => p0)) := by
  have hb : (env.searchStatus title == 200) = true := by simp [hst]
  have hm := findMatching_eq_find env title (p0 :: rest)
  cases hf : (p0 :: rest).find?
      (fun p => (get_title_for_pmid env p).1 == some (title ++ ".")) with
  | none => simp [get_pmid_for_title, hb, hcount, hm, hf, hid, pyTruthy]
  | some p =>
    by_cases hp : p.isEmpty
    · simp [get_pmid_for_title, hb, hcount, hm, hf, hid, pyTruthy, hp]
    · simp [get_pmid_for_title, hb, hcount, hm, hf, hid, pyTruthy, hp]

/-- Witness for C4 amended: with candidates `11` and `22` and the fetched
title of `22` matching `Foo bar.`, the resolver returns `22`. -/
theorem get_pmid_multi_witness :
    (get_pmid_for_title envPmidMulti "Foo bar").1 = Except.ok (some "22") := by
  have h := get_pmid_multi envPmidMulti "Foo bar" "11" ["22"] rfl (by decide) rfl
  rw [h]
  rfl

/-- C1 counterexample: even with every cache artifact present — here a
filesystem on which every path exists, in particular the per-dataset file —
re-running the downloader still performs a network call (the asset-metadata
GET). -/
theorem downloader_network_despite_cache :
    fsAll (downloadName dsRow0.dataset_id "H5AD") = true ∧
      (get_dataset envDsOk fsAll dsRow0).2.any Effect.isNetwork = true :=
  ⟨rfl, rfl⟩

/-- C1 amended: when its cache artifact exists, each of the locator, the
citation resolver, the PMID resolver and the annotation runner reads from
cache and performs no network call (nor spawns the external process); the
downloader, however, always performs the asset-metadata GET and only skips
the asset streaming and the file write when the per-dataset file exists. -/
theorem cached_stages_read_cache (fs : FS) (envL : LocatorEnv) (envT : TitlesEnv)
    (envP : PmidEnv) (envD : DatasetEnv) (rows : List DatasetRow)
    (ts : List String) (pmid : String) (row : DatasetRow)
    (h1 : fs "lung_obs.parquet" = true) (h2 : fs "lung_datasets.parquet" = true)
    (h3 : fs "titles.pickle" = true) (h4 : fs "pmids.pickle" = true)
    (h5 : fs (ONTOGPT_DIR ++ "/" ++ pmid ++ ".out") = true)
    (h6 : fs (downloadName row.dataset_id "H5AD") = true) :
    ((get_lung_obs_and_datasets fs envL).2.any Effect.isNetwork = false ∧
      (get_lung_obs_and_datasets fs envL).1 = (envL.cachedObs, envL.cachedDatasets)) ∧
    ((get_titles fs envT rows).2.any Effect.isNetwork = false ∧
      (get_titles fs envT rows).1 = envT.cachedTitles) ∧
    ((get_pmids fs envP ts).2.any Effect.isNetwork = false ∧
      (get_pmids fs envP ts).1 = Except.ok envP.cachedPmids) ∧
    (run_ontogpt_pubmed_annotate fs pmid).any Effect.isNetwork = false ∧
    (Effect.netGet (datasetUrl row.collection_id row.dataset_id) ∈
        (get_dataset envD fs row).2 ∧
      (get_dataset envD fs row).2.filter Effect.isWrite = [] ∧
      (get_dataset envD fs row).2.filter Effect.isStream = []) := by
  refine ⟨⟨?_, ?_⟩, ⟨?_, ?_⟩, ⟨?_, ?_⟩, ?_, ?_⟩
  · simp [get_lung_obs_and_datasets, h1, h2, Effect.isNetwork]
  · simp [get_lung_obs_and_datasets, h1, h2]
  · simp [get_titles, h3, Effect.isNetwork]
  · simp [get_titles, h3]
  · simp [get_pmids, h4, Effect.isNetwork]
  · simp [get_pmids, h4]
  · simp [run_ontogpt_pubmed_annotate, h5, Effect.isNetwork]
  · by_cases hmr : 400 ≤ envD.metaStatus (datasetUrl row.collection_id row.dataset_id)
    · simp [get_dataset, hmr, Effect.isWrite, Effect.isStream]
    · by_cases hms : envD.metaStatus (datasetUrl row.collection_id row.dataset_id) = 200
      · by_cases hidm : row.dataset_id =
            envD.respDatasetId (datasetUrl row.collection_id row.dataset_id)
        · have hc := (downloadAssets_cached envD row.dataset_id fs
            (envD.assets (datasetUrl row.collection_id row.dataset_id)) h6).2
          have hw : (downloadAssets envD row.dataset_id fs
                (envD.assets (datasetUrl row.collection_id row.dataset_id))).2.filter
                Effect.isWrite = [] :=
            List.filter_eq_nil_iff.mpr (fun e he => by simp [(hc e he).1])
          have hs : (downloadAssets envD row.dataset_id fs
                (envD.assets (datasetUrl row.collection_id row.dataset_id))).2.filter
                Effect.isStream = [] :=
            List.filter_eq_nil_iff.mpr (fun e he => by simp [(hc e he).2])
          simp [get_dataset, hmr, hms, ← hidm, hw, hs, Effect.isWrite, Effect.isStream]
        · simp [get_dataset, hmr, hms, hidm, Effect.isWrite, Effect.isStream]
      · simp [get_dataset, hmr, hms, Effect.isWrite, Effect.isStream]

/-- Witness for C1 amended: on a filesystem where every cache artifact
exists, each cached stage returns its cached contents with no network
effect, and the downloader performs only the metadata GET. -/
theorem cached_stages_read_cache_witness :
    ((get_lung_obs_and_datasets fsAll envLoc0).2.any Effect.isNetwork = false ∧
      (get_lung_obs_and_datasets fsAll envLoc0).1 =
        (envLoc0.cachedObs, envLoc0.cachedDatasets)) ∧
    ((get_titles fsAll envTitles0 []).2.any Effect.isNetwork = false ∧
      (get_titles fsAll envTitles0 []).1 = envTitles0.cachedTitles) ∧
    ((get_pmids fsAll envPmidErr []).2.any Effect.isNetwork = false ∧
      (get_pmids fsAll envPmidErr []).1 = Except.ok envPmidErr.cachedPmids) ∧
    (run_ontogpt_pubmed_annotate fsAll "38540357").any Effect.isNetwork = false ∧
    (Effect.netGet (datasetUrl dsRow0.collection_id dsRow0.dataset_id) ∈
        (get_dataset envDsOk fsAll dsRow0).2 ∧
      (get_dataset envDsOk fsAll dsRow0).2.filter Effect.isWrite = [] ∧
      (get_dataset envDsOk fsAll dsRow0).2.filter Effect.isStream = []) :=
  cached_stages_read_cache fsAll envLoc0 envTitles0 envPmidErr envDsOk []
    [] "38540357" dsRow0 rfl rfl rfl rfl rfl rfl
